import Mathlib

/-!
Verification of the compliance-rule evaluation engine
(`src/services/compliance_engine.py`) against its specification.

Embedding conventions:

* Python floats are modelled as `Rat` (all engine constants are small
  decimals; no claim under scrutiny depends on binary floating-point
  rounding).
* Python dicts for requirement / test-case records are modelled as the
  structure `EvaluableEntity` whose fields are `Option PyVal`: `none`
  models an absent key, `some v` a present key with dynamic value `v`.
  `PyVal` models the Python values the engine can receive; `truthy`
  models Python truthiness, `pyStr` models `str()` / f-string
  formatting (string escaping inside `repr` of list elements is elided,
  no claim depends on it), `pyLen` models `len` (raising `TypeError`,
  modelled as `Except.error ()`, on unsized values) and `pyJoin`
  models `str.join` (raising on non-iterables and non-string items).
* The catalog's regular expressions are sequences of literal words
  joined by `\s+`, plus the character class `[abc]`.  They are modelled
  by `RePat`: the literal regex source (for evidence strings) together
  with its parsed form, a list of segments joined by `\s+`.  `reSearch`
  models `re.search(pattern, text, re.IGNORECASE)`: it tries a match at
  every start position; `\s+` is consumed greedily without
  backtracking, which is equivalent to the regex's backtracking
  semantics here because in every catalog pattern the character
  following `\s+` is a letter (or the class `[abc]`), never a
  whitespace character, so only the maximal whitespace run can be
  followed by a successful segment match.  Case-insensitivity is
  modelled by lowering each text character before comparison (catalog
  patterns are all lower case); `\s` is the ASCII whitespace set.
  `lowerChar`/`lowerStr` model `str.lower` on ASCII text.
* Exceptions escaping a function are modelled by `Except Unit`.
-/

/-! ## Dynamic Python values -/

inductive PyVal where
  | none
  | bool (b : Bool)
  | int (n : Int)
  | str (s : String)
  | list (xs : List PyVal)

/-- Python truthiness (`bool(v)`). -/
def truthy : PyVal → Bool
  | .none => false
  | .bool b => b
  | .int n => decide (n ≠ 0)
  | .str s => decide (s ≠ "")
  | .list xs => !xs.isEmpty

/-- Python `len(v)`; `TypeError` on values with no length. -/
def pyLen : PyVal → Except Unit Nat
  | .str s => .ok s.length
  | .list xs => .ok xs.length
  | _ => .error ()

def quoteChar : Char := '\''

mutual

/-- Python `repr(v)` for the values above (string escaping elided). -/
def pyRepr : PyVal → String
  | .none => "None"
  | .bool true => "True"
  | .bool false => "False"
  | .int n => toString n
  | .str s => String.singleton quoteChar ++ s ++ String.singleton quoteChar
  | .list xs => "[" ++ pyReprList xs ++ "]"

/-- Comma-separated reprs of the elements of a Python list. -/
def pyReprList : List PyVal → String
  | [] => ""
  | [v] => pyRepr v
  | v :: rest => pyRepr v ++ ", " ++ pyReprList rest

end

/-- Python `str(v)` (the conversion applied by f-string interpolation). -/
def pyStr : PyVal → String
  | .none => "None"
  | .bool true => "True"
  | .bool false => "False"
  | .int n => toString n
  | .str s => s
  | .list xs => "[" ++ pyReprList xs ++ "]"

/-- The items of a Python list if they are all strings, else `none`. -/
def allStrings : List PyVal → Option (List String)
  | [] => some []
  | .str s :: rest => (allStrings rest).map (s :: ·)
  | _ => none

/-- Python `sep.join(v)`: joins a list of strings, or the characters of
a string (a string is an iterable of 1-character strings); `TypeError`
on any other value or on non-string list items. -/
def pyJoin (sep : String) : PyVal → Except Unit String
  | .list xs =>
    match allStrings xs with
    | some ss => .ok (String.intercalate sep ss)
    | none => .error ()
  | .str s => .ok (String.intercalate sep (s.toList.map String.singleton))
  | _ => .error ()

/-- Python `d.get(key, default)` over an optional field. -/
def pyGet (field : Option PyVal) (default : PyVal) : PyVal :=
  field.getD default

/-! ## Text primitives -/

/-- ASCII lower-casing of one character (`str.lower` on ASCII text). -/
def lowerChar (c : Char) : Char :=
  if 'A' ≤ c ∧ c ≤ 'Z' then Char.ofNat (c.toNat + 32) else c

/-- ASCII lower-casing of a string. -/
def lowerStr (s : String) : String := String.mk (s.toList.map lowerChar)

/-- ASCII whitespace, the characters matched by the regex `\s`. -/
def isSpaceChar (c : Char) : Bool :=
  c = ' ' || c = '\t' || c = '\n' || c = '\r' || c = '\x0b' || c = '\x0c'

/-- Python `needle in hay` (substring containment). -/
def containsSub : List Char → List Char → Bool
  | hay, needle =>
    needle.isPrefixOf hay ||
      match hay with
      | [] => false
      | _ :: t => containsSub t needle

/-- Python `needle in hay` on strings. -/
def strIn (needle hay : String) : Bool := containsSub hay.toList needle.toList

/-! ## Regular-expression model -/

/-- One atom of a catalog regex segment: a literal (lower-case) character
or the character class `[abc]`. -/
inductive PatAtom where
  | ch (c : Char)
  | cls (cs : List Char)
deriving DecidableEq

/-- Case-insensitive match of one atom against one text character. -/
def atomM : PatAtom → Char → Bool
  | .ch c, c' => c = lowerChar c'
  | .cls cs, c' => cs.contains (lowerChar c')

/-- Match a segment (list of atoms) as a prefix of the text, returning
the remaining text on success. -/
def segM : List PatAtom → List Char → Option (List Char)
  | [], cs => some cs
  | _ :: _, [] => none
  | a :: as, c :: cs => if atomM a c then segM as cs else none

/-- Drop a maximal run of whitespace characters. -/
def dropWsAll : List Char → List Char
  | [] => []
  | c :: cs => if isSpaceChar c then dropWsAll cs else c :: cs

/-- Consume `\s+`: requires at least one whitespace character, then
consumes the maximal whitespace run. -/
def dropWs1 : List Char → Option (List Char)
  | [] => none
  | c :: cs => if isSpaceChar c then some (dropWsAll cs) else none

/-- Match a pattern (segments joined by `\s+`) at the start of the text. -/
def patM : List (List PatAtom) → List Char → Bool
  | [], _ => true
  | [s], cs => (segM s cs).isSome
  | s :: s2 :: rest, cs =>
    match segM s cs with
    | none => false
    | some cs' =>
      match dropWs1 cs' with
      | none => false
      | some cs'' => patM (s2 :: rest) cs''

/-- Model of `re.search(pattern, text, re.IGNORECASE)`: try the pattern
at every start position. -/
def reSearch (p : List (List PatAtom)) : List Char → Bool
  | [] => patM p []
  | c :: cs => patM p (c :: cs) || reSearch p cs

/-- A catalog regex: its literal source (used in evidence strings) and
its parsed form. -/
structure RePat where
  src : String
  pat : List (List PatAtom)
deriving DecidableEq

/-- A segment of literal characters. -/
def seg (s : String) : List PatAtom := s.toList.map PatAtom.ch

/-- A regex that is literal words joined by `\s+`. -/
def phrase (src : String) (ws : List String) : RePat := ⟨src, ws.map seg⟩

/-! ## Data model (`compliance_engine.py` lines 8-45) -/

/-- Compliance assessment levels (`ComplianceLevel`). -/
inductive ComplianceLevel where
  | compliant
  | partially_compliant
  | non_compliant
  | unknown
deriving DecidableEq

/-- Risk assessment levels (`RiskLevel`). -/
inductive RiskLevel where
  | high
  | medium
  | low
  | unknown
deriving DecidableEq

/-- A compliance rule for a specific standard (`ComplianceRule`).
`validation_criteria` is a Python dict from criterion name to boolean,
modelled as an association list in insertion order. -/
structure ComplianceRule where
  rule_id : String
  standard : String
  title : String
  description : String
  requirement_patterns : List RePat
  test_case_patterns : List RePat
  mandatory : Bool
  risk_level : RiskLevel
  validation_criteria : List (String × Bool)
deriving DecidableEq

/-- Result of a compliance assessment (`ComplianceResult`). -/
structure ComplianceResult where
  rule_id : String
  standard : String
  compliance_level : ComplianceLevel
  score : Rat
  findings : List String
  recommendations : List String
  evidence : List String
  risk_assessment : RiskLevel
deriving DecidableEq

/-- A caller-supplied requirement or test-case record: a Python dict
restricted to the keys the engine reads.  `none` models an absent key. -/
structure EvaluableEntity where
  title : Option PyVal := none
  description : Option PyVal := none
  test_steps : Option PyVal := none
  preconditions : Option PyVal := none
  expected_results : Option PyVal := none
  postconditions : Option PyVal := none
  priority : Option PyVal := none

/-! ## Rule catalog (`_initialize_compliance_rules`, lines 64-283) -/

def FDA_820_001 : ComplianceRule :=
  { rule_id := "FDA_820_001"
    standard := "FDA 21 CFR Part 820"
    title := "Design Controls"
    description := "Software development must follow design control procedures"
    requirement_patterns :=
      [ phrase "design\\s+control" ["design", "control"],
        phrase "design\\s+input" ["design", "input"],
        phrase "design\\s+output" ["design", "output"],
        phrase "design\\s+review" ["design", "review"],
        phrase "design\\s+verification" ["design", "verification"],
        phrase "design\\s+validation" ["design", "validation"] ]
    test_case_patterns :=
      [ phrase "verify\\s+design" ["verify", "design"],
        phrase "validate\\s+design" ["validate", "design"],
        phrase "design\\s+review" ["design", "review"],
        phrase "traceability" ["traceability"] ]
    mandatory := true
    risk_level := RiskLevel.high
    validation_criteria :=
      [ ("requires_traceability", true),
        ("requires_verification", true),
        ("requires_validation", true) ] }

def FDA_820_002 : ComplianceRule :=
  { rule_id := "FDA_820_002"
    standard := "FDA 21 CFR Part 820"
    title := "Risk Management"
    description := "Risk analysis and management throughout development"
    requirement_patterns :=
      [ phrase "risk\\s+analysis" ["risk", "analysis"],
        phrase "risk\\s+management" ["risk", "management"],
        phrase "hazard\\s+analysis" ["hazard", "analysis"],
        phrase "failure\\s+mode" ["failure", "mode"] ]
    test_case_patterns :=
      [ phrase "risk\\s+test" ["risk", "test"],
        phrase "safety\\s+test" ["safety", "test"],
        phrase "hazard\\s+test" ["hazard", "test"],
        phrase "failure\\s+test" ["failure", "test"] ]
    mandatory := true
    risk_level := RiskLevel.high
    validation_criteria :=
      [ ("requires_risk_analysis", true),
        ("requires_mitigation", true) ] }

def IEC_62304_001 : ComplianceRule :=
  { rule_id := "IEC_62304_001"
    standard := "IEC 62304"
    title := "Software Safety Classification"
    description := "Software must be classified according to safety requirements"
    requirement_patterns :=
      [ phrase "safety\\s+class" ["safety", "class"],
        ⟨"class\\s+[abc]", [seg "class", [PatAtom.cls ['a', 'b', 'c']]]⟩,
        phrase "safety\\s+classification" ["safety", "classification"],
        phrase "medical\\s+device\\s+software" ["medical", "device", "software"] ]
    test_case_patterns :=
      [ phrase "safety\\s+test" ["safety", "test"],
        ⟨"class\\s+[abc]\\s+test", [seg "class", [PatAtom.cls ['a', 'b', 'c']], seg "test"]⟩,
        phrase "safety\\s+verification" ["safety", "verification"] ]
    mandatory := true
    risk_level := RiskLevel.high
    validation_criteria :=
      [ ("requires_classification", true),
        ("requires_safety_analysis", true) ] }

def IEC_62304_002 : ComplianceRule :=
  { rule_id := "IEC_62304_002"
    standard := "IEC 62304"
    title := "Software Development Lifecycle"
    description := "Structured software development process"
    requirement_patterns :=
      [ phrase "software\\s+development\\s+plan" ["software", "development", "plan"],
        phrase "development\\s+lifecycle" ["development", "lifecycle"],
        phrase "software\\s+architecture" ["software", "architecture"],
        phrase "software\\s+design" ["software", "design"] ]
    test_case_patterns :=
      [ phrase "integration\\s+test" ["integration", "test"],
        phrase "system\\s+test" ["system", "test"],
        phrase "software\\s+test" ["software", "test"],
        phrase "unit\\s+test" ["unit", "test"] ]
    mandatory := true
    risk_level := RiskLevel.medium
    validation_criteria :=
      [ ("requires_documentation", true),
        ("requires_testing", true) ] }

def ISO_13485_001 : ComplianceRule :=
  { rule_id := "ISO_13485_001"
    standard := "ISO 13485"
    title := "Quality Management System"
    description := "Quality management system for medical devices"
    requirement_patterns :=
      [ phrase "quality\\s+management" ["quality", "management"],
        phrase "qms" ["qms"],
        phrase "quality\\s+system" ["quality", "system"],
        phrase "quality\\s+control" ["quality", "control"] ]
    test_case_patterns :=
      [ phrase "quality\\s+test" ["quality", "test"],
        phrase "qms\\s+test" ["qms", "test"],
        phrase "quality\\s+verification" ["quality", "verification"] ]
    mandatory := true
    risk_level := RiskLevel.medium
    validation_criteria :=
      [ ("requires_documentation", true),
        ("requires_procedures", true) ] }

def ISO_27001_001 : ComplianceRule :=
  { rule_id := "ISO_27001_001"
    standard := "ISO 27001"
    title := "Information Security Management"
    description := "Information security controls and management"
    requirement_patterns :=
      [ phrase "information\\s+security" ["information", "security"],
        phrase "data\\s+security" ["data", "security"],
        phrase "security\\s+control" ["security", "control"],
        phrase "access\\s+control" ["access", "control"],
        phrase "encryption" ["encryption"],
        phrase "authentication" ["authentication"] ]
    test_case_patterns :=
      [ phrase "security\\s+test" ["security", "test"],
        phrase "access\\s+control\\s+test" ["access", "control", "test"],
        phrase "authentication\\s+test" ["authentication", "test"],
        phrase "encryption\\s+test" ["encryption", "test"],
        phrase "penetration\\s+test" ["penetration", "test"] ]
    mandatory := true
    risk_level := RiskLevel.high
    validation_criteria :=
      [ ("requires_security_testing", true),
        ("requires_access_control", true) ] }

def HIPAA_001 : ComplianceRule :=
  { rule_id := "HIPAA_001"
    standard := "HIPAA"
    title := "Protected Health Information"
    description := "Protection of patient health information"
    requirement_patterns :=
      [ phrase "protected\\s+health\\s+information" ["protected", "health", "information"],
        phrase "phi" ["phi"],
        phrase "patient\\s+data" ["patient", "data"],
        phrase "health\\s+information" ["health", "information"],
        phrase "privacy" ["privacy"],
        phrase "confidentiality" ["confidentiality"] ]
    test_case_patterns :=
      [ phrase "privacy\\s+test" ["privacy", "test"],
        phrase "phi\\s+test" ["phi", "test"],
        phrase "data\\s+protection\\s+test" ["data", "protection", "test"],
        phrase "confidentiality\\s+test" ["confidentiality", "test"] ]
    mandatory := true
    risk_level := RiskLevel.high
    validation_criteria :=
      [ ("requires_privacy_protection", true),
        ("requires_audit_trail", true) ] }

def GDPR_001 : ComplianceRule :=
  { rule_id := "GDPR_001"
    standard := "GDPR"
    title := "Data Protection and Privacy"
    description := "General Data Protection Regulation compliance"
    requirement_patterns :=
      [ phrase "data\\s+protection" ["data", "protection"],
        phrase "gdpr" ["gdpr"],
        phrase "personal\\s+data" ["personal", "data"],
        phrase "data\\s+subject\\s+rights" ["data", "subject", "rights"],
        phrase "consent" ["consent"],
        phrase "data\\s+processing" ["data", "processing"] ]
    test_case_patterns :=
      [ phrase "gdpr\\s+test" ["gdpr", "test"],
        phrase "data\\s+protection\\s+test" ["data", "protection", "test"],
        phrase "consent\\s+test" ["consent", "test"],
        phrase "data\\s+subject\\s+test" ["data", "subject", "test"],
        phrase "privacy\\s+test" ["privacy", "test"] ]
    mandatory := true
    risk_level := RiskLevel.high
    validation_criteria :=
      [ ("requires_consent_management", true),
        ("requires_data_subject_rights", true) ] }

/-- The rule catalog, in dict insertion order (`self.compliance_rules.values()`). -/
def compliance_rules : List ComplianceRule :=
  [FDA_820_001, FDA_820_002, IEC_62304_001, IEC_62304_002,
   ISO_13485_001, ISO_27001_001, HIPAA_001, GDPR_001]

/-- The supported standards (`self.standards`, lines 54-62). -/
def standards : List String :=
  ["FDA 21 CFR Part 820", "IEC 62304", "ISO 13485", "ISO 9001",
   "ISO 27001", "HIPAA", "GDPR"]

/-! ## Engine operations -/

/-- The combined title-plus-description text of a record:
`f"{item.get('title', '')} {item.get('description', '')}".lower()`
(lines 290, 400 and 474). -/
def entityText (item : EvaluableEntity) : String :=
  lowerStr (pyStr (pyGet item.title (.str "")) ++ " " ++ pyStr (pyGet item.description (.str "")))

/-- Python `criteria.get(name)` truthiness over the criteria dict. -/
def criteria_get (criteria : List (String × Bool)) (name : String) : Bool :=
  (((criteria.find? (fun pr => pr.1 == name)).map (·.2)).getD false)

/-- The keyword test the `elif` chain of `_check_validation_criteria`
(lines 480-497) applies to one criterion name; `false` for names with
no known keyword mapping. -/
def criterionHit (criterion : String) (item_text : String) : Bool :=
  if criterion = "requires_traceability" then
    strIn "traceability" item_text || strIn "trace" item_text
  else if criterion = "requires_verification" then
    strIn "verify" item_text || strIn "verification" item_text
  else if criterion = "requires_validation" then
    strIn "validate" item_text || strIn "validation" item_text
  else if criterion = "requires_risk_analysis" then
    strIn "risk" item_text || strIn "hazard" item_text
  else if criterion = "requires_security_testing" then
    strIn "security" item_text || strIn "secure" item_text
  else if criterion = "requires_documentation" then
    strIn "document" item_text || strIn "record" item_text
  else false

/-- `_check_validation_criteria` (lines 464-500): the number of required
criteria whose keywords appear in the item's text, divided by the total
number of criteria entries; `1.0` for an empty criteria dict. -/
def check_validation_criteria (item : EvaluableEntity) (criteria : List (String × Bool)) : Rat :=
  let total_criteria := criteria.length
  if total_criteria = 0 then 1
  else
    let item_text := entityText item
    let hits := criteria.countP (fun pr => pr.2 && criterionHit pr.1 item_text)
    (hits : Rat) / (total_criteria : Rat)

/-- The condition `test_case.get('test_steps') and len(test_case['test_steps']) > 0`
of line 515, with Python's short-circuit `and` (so `len` is only reached,
and can only raise, when the field is truthy). -/
def test_steps_flag (test_case : EvaluableEntity) : Except Unit Bool :=
  if truthy (pyGet test_case.test_steps .none) then
    match pyLen (pyGet test_case.test_steps .none) with
    | .error e => .error e
    | .ok n => .ok (decide (0 < n))
  else .ok false

/-- `_assess_test_case_completeness` (lines 502-524): fixed weights for
the populated structural fields of a test case. -/
def assess_test_case_completeness (test_case : EvaluableEntity) : Except Unit Rat :=
  let score : Rat := 0
  let score := if truthy (pyGet test_case.title .none) then score + 0.1 else score
  let score := if truthy (pyGet test_case.description .none) then score + 0.1 else score
  let score := if truthy (pyGet test_case.preconditions .none) then score + 0.1 else score
  match test_steps_flag test_case with
  | .error e => .error e
  | .ok b =>
    let score := if b then score + 0.3 else score
    let score := if truthy (pyGet test_case.expected_results .none) then score + 0.2 else score
    let score := if truthy (pyGet test_case.postconditions .none) then score + 0.1 else score
    let score := if truthy (pyGet test_case.priority .none) then score + 0.1 else score
    .ok score

/-- `_evaluate_requirement_against_rule` (lines 315-379). -/
def evaluate_requirement_against_rule (requirement_text : String)
    (requirement : EvaluableEntity) (rule : ComplianceRule) : ComplianceResult :=
  let matched := rule.requirement_patterns.filter fun rp => reSearch rp.pat requirement_text.toList
  let pattern_matches := matched.length
  let evidence := matched.map fun rp => "Found pattern: " ++ rp.src
  if pattern_matches = 0 then
    { rule_id := rule.rule_id, standard := rule.standard,
      compliance_level := ComplianceLevel.unknown, score := 0,
      findings := [], recommendations := [], evidence := [],
      risk_assessment := RiskLevel.unknown }
  else
    let pattern_score : Rat :=
      min ((pattern_matches : Rat) / (rule.requirement_patterns.length : Rat)) 1
    let score := pattern_score * 0.6
    let criteria_score := check_validation_criteria requirement rule.validation_criteria
    let score := score + criteria_score * 0.4
    let lfr : ComplianceLevel × List String × List String :=
      if 0.8 ≤ score then (ComplianceLevel.compliant, [], [])
      else if 0.5 ≤ score then
        (ComplianceLevel.partially_compliant,
         ["Requirement partially meets compliance criteria"],
         ["Enhance requirement to fully comply with " ++ rule.standard])
      else
        (ComplianceLevel.non_compliant,
         ["Requirement does not meet compliance criteria"],
         ["Revise requirement to comply with " ++ rule.standard])
    let recommendations := lfr.2.2
    let recommendations :=
      if criteria_get rule.validation_criteria "requires_traceability"
          && !(strIn "traceability" requirement_text)
      then recommendations ++ ["Add traceability requirements"] else recommendations
    let recommendations :=
      if criteria_get rule.validation_criteria "requires_risk_analysis"
          && !(strIn "risk" requirement_text)
      then recommendations ++ ["Include risk analysis requirements"] else recommendations
    { rule_id := rule.rule_id, standard := rule.standard,
      compliance_level := lfr.1, score := score, findings := lfr.2.1,
      recommendations := recommendations, evidence := evidence,
      risk_assessment := rule.risk_level }

/-- The count of rule requirement patterns found in the linked
requirement's text (lines 397-403 of `_evaluate_test_case_against_rule`);
`0` when no requirement record is supplied. -/
def req_pattern_match_count (rule : ComplianceRule)
    (requirement : Option EvaluableEntity) : Nat :=
  match requirement with
  | none => 0
  | some req =>
    (rule.requirement_patterns.filter fun rp => reSearch rp.pat (entityText req).toList).length

/-- `_evaluate_test_case_against_rule` (lines 381-462). -/
def evaluate_test_case_against_rule (test_case_text : String)
    (test_case : EvaluableEntity) (rule : ComplianceRule)
    (requirement : Option EvaluableEntity) : Except Unit ComplianceResult :=
  let matchedTc := rule.test_case_patterns.filter fun rp => reSearch rp.pat test_case_text.toList
  let pattern_matches := matchedTc.length
  let evidence := matchedTc.map fun rp => "Found test pattern: " ++ rp.src
  let req_pattern_matches := req_pattern_match_count rule requirement
  if pattern_matches = 0 ∧ req_pattern_matches = 0 then
    .ok { rule_id := rule.rule_id, standard := rule.standard,
          compliance_level := ComplianceLevel.unknown, score := 0,
          findings := [], recommendations := [], evidence := [],
          risk_assessment := RiskLevel.unknown }
  else
    match assess_test_case_completeness test_case with
    | .error e => .error e
    | .ok completeness_score =>
      let pattern_score : Rat :=
        if 0 < rule.test_case_patterns.length then
          min ((pattern_matches : Rat) / (rule.test_case_patterns.length : Rat)) 1
        else 0.5
      let score := pattern_score * 0.7
      let score := if 0 < req_pattern_matches then score + 0.3 else score
      let evidence :=
        if 0 < req_pattern_matches then
          evidence ++ ["Test case addresses compliance-related requirements"]
        else evidence
      let score := (score + completeness_score) / 2
      let lfr : ComplianceLevel × List String × List String :=
        if 0.8 ≤ score then (ComplianceLevel.compliant, [], [])
        else if 0.5 ≤ score then
          (ComplianceLevel.partially_compliant,
           ["Test case partially covers compliance requirements"],
           ["Enhance test case to fully verify " ++ rule.standard ++ " compliance"])
        else
          (ComplianceLevel.non_compliant,
           ["Test case does not adequately verify compliance"],
           ["Add test steps to verify " ++ rule.standard ++ " compliance"])
      let recommendations := lfr.2.2
      let recommendations :=
        if criteria_get rule.validation_criteria "requires_security_testing"
            && !(strIn "security" test_case_text)
        then recommendations ++ ["Add security testing steps"] else recommendations
      let recommendations :=
        if criteria_get rule.validation_criteria "requires_verification"
            && !(strIn "verify" test_case_text)
        then recommendations ++ ["Add verification steps"] else recommendations
      .ok { rule_id := rule.rule_id, standard := rule.standard,
            compliance_level := lfr.1, score := score, findings := lfr.2.1,
            recommendations := recommendations, evidence := evidence,
            risk_assessment := rule.risk_level }

/-- `assess_requirement_compliance` (lines 285-297): evaluate every
catalog rule and keep the non-UNKNOWN results. -/
def assess_requirement_compliance (requirement : EvaluableEntity) : List ComplianceResult :=
  let requirement_text := entityText requirement
  (compliance_rules.map fun rule =>
      evaluate_requirement_against_rule requirement_text requirement rule).filter
    fun r => decide (r.compliance_level ≠ ComplianceLevel.unknown)

/-- The full text of a test case built by lines 304-306:
title and description lowered, plus `" ".join(test_case.get('test_steps', []))`
lowered; the join propagates a `TypeError` for non-joinable values. -/
def test_case_full_text (test_case : EvaluableEntity) : Except Unit String :=
  let test_case_text :=
    lowerStr (pyStr (pyGet test_case.title (.str "")) ++ " " ++
      pyStr (pyGet test_case.description (.str "")))
  match pyJoin " " (pyGet test_case.test_steps (.list [])) with
  | .error e => .error e
  | .ok joined => .ok (test_case_text ++ " " ++ lowerStr joined)

/-- The rule loop of `assess_test_case_compliance` (lines 308-311):
evaluate the rules in catalog order, keeping non-UNKNOWN results; an
exception raised by any evaluation aborts the whole assessment. -/
def assess_test_case_rules (full_text : String) (test_case : EvaluableEntity)
    (requirement : Option EvaluableEntity) :
    List ComplianceRule → Except Unit (List ComplianceResult)
  | [] => .ok []
  | rule :: rest =>
    match evaluate_test_case_against_rule full_text test_case rule requirement with
    | .error e => .error e
    | .ok r =>
      match assess_test_case_rules full_text test_case requirement rest with
      | .error e => .error e
      | .ok rs =>
        .ok ((if r.compliance_level ≠ ComplianceLevel.unknown then [r] else []) ++ rs)

/-- `assess_test_case_compliance` (lines 299-313). -/
def assess_test_case_compliance (test_case : EvaluableEntity)
    (requirement : Option EvaluableEntity) : Except Unit (List ComplianceResult) :=
  match test_case_full_text test_case with
  | .error e => .error e
  | .ok full_text => assess_test_case_rules full_text test_case requirement compliance_rules

/-- One row of the overall-compliance rollup (`_calculate_overall_compliance`). -/
structure OverallEntry where
  score : Rat
  compliance_level : ComplianceLevel
  requirement_count : Nat
  test_case_count : Nat
deriving DecidableEq

/-- The body of the per-standard loop of `_calculate_overall_compliance`
(lines 595-624): `none` when the standard has no results in either group
(the `continue` of line 600). -/
def overall_entry_for (req_results tc_results : List ComplianceResult)
    (standard : String) : Option OverallEntry :=
  let standard_req_results := req_results.filter fun r => decide (r.standard = standard)
  let standard_tc_results := tc_results.filter fun r => decide (r.standard = standard)
  if standard_req_results = [] ∧ standard_tc_results = [] then none
  else
    let req_scores := standard_req_results.map (·.score)
    let tc_scores := standard_tc_results.map (·.score)
    let avg_req_score : Rat :=
      if req_scores ≠ [] then req_scores.sum / (req_scores.length : Rat) else 0
    let avg_tc_score : Rat :=
      if tc_scores ≠ [] then tc_scores.sum / (tc_scores.length : Rat) else 0
    let overall_score : Rat :=
      if req_scores ≠ [] ∧ tc_scores ≠ [] then (avg_req_score + avg_tc_score) / 2
      else if avg_req_score ≠ 0 then avg_req_score else avg_tc_score
    some { score := overall_score
           compliance_level :=
             if 0.8 ≤ overall_score then ComplianceLevel.compliant
             else if 0.5 ≤ overall_score then ComplianceLevel.partially_compliant
             else ComplianceLevel.non_compliant
           requirement_count := standard_req_results.length
           test_case_count := standard_tc_results.length }

/-- `_calculate_overall_compliance` (lines 590-626): the rollup mapping
from standard to overall entry, as an association list in the iteration
order of `self.standards`. -/
def calculate_overall_compliance (req_results tc_results : List ComplianceResult) :
    List (String × OverallEntry) :=
  standards.filterMap fun standard =>
    (overall_entry_for req_results tc_results standard).map fun e => (standard, e)

/-- Average of a list of scores (`sum(scores) / len(scores)`), used to
state the rollup claims. -/
def listAvg (scores : List Rat) : Rat := scores.sum / (scores.length : Rat)

/-! ## Basic bounds -/

lemma check_validation_criteria_bounds (item : EvaluableEntity)
    (criteria : List (String × Bool)) :
    0 ≤ check_validation_criteria item criteria ∧
      check_validation_criteria item criteria ≤ 1 := by
  simp only [check_validation_criteria]
  by_cases h : criteria.length = 0
  · simp [h]
  · rw [if_neg h]
    have hpos : (0 : Rat) < (criteria.length : Rat) := by
      exact_mod_cast Nat.pos_of_ne_zero h
    constructor
    · positivity
    · rw [div_le_one hpos]
      exact_mod_cast List.countP_le_length _

set_option maxHeartbeats 1600000 in
lemma assess_test_case_completeness_bounds (tc : EvaluableEntity) (c : Rat)
    (h : assess_test_case_completeness tc = Except.ok c) : 0 ≤ c ∧ c ≤ 1 := by
  simp only [assess_test_case_completeness] at h
  rcases hf : test_steps_flag tc with e | b <;> rw [hf] at h
  · simp at h
  · simp only [Except.ok.injEq] at h
    subst h
    split_ifs <;> norm_num

lemma evaluate_requirement_score_bounds (text : String) (entity : EvaluableEntity)
    (rule : ComplianceRule) :
    0 ≤ (evaluate_requirement_against_rule text entity rule).score ∧
      (evaluate_requirement_against_rule text entity rule).score ≤ 1 := by
  by_cases h : (rule.requirement_patterns.filter fun rp => reSearch rp.pat text.toList).length = 0
  · simp only [evaluate_requirement_against_rule]
    rw [if_pos h]
    norm_num
  · simp only [evaluate_requirement_against_rule]
    rw [if_neg h]
    dsimp only
    obtain ⟨hc0, hc1⟩ := check_validation_criteria_bounds entity rule.validation_criteria
    have hm0 : (0 : Rat) ≤
        min (((rule.requirement_patterns.filter fun rp =>
            reSearch rp.pat text.toList).length : Rat) /
          (rule.requirement_patterns.length : Rat)) 1 :=
      le_min (by positivity) (by norm_num)
    have hm1 : min (((rule.requirement_patterns.filter fun rp =>
          reSearch rp.pat text.toList).length : Rat) /
        (rule.requirement_patterns.length : Rat)) 1 ≤ 1 := min_le_right _ _
    constructor <;> nlinarith

lemma evaluate_test_case_score_bounds (text : String) (entity : EvaluableEntity)
    (rule : ComplianceRule) (requirement : Option EvaluableEntity) (r : ComplianceResult)
    (hr : evaluate_test_case_against_rule text entity rule requirement = Except.ok r) :
    0 ≤ r.score ∧ r.score ≤ 1 := by
  simp only [evaluate_test_case_against_rule] at hr
  split at hr
  · simp only [Except.ok.injEq] at hr
    subst hr
    norm_num
  · rcases hc : assess_test_case_completeness entity with e | c <;> rw [hc] at hr
    · simp at hr
    · simp only [Except.ok.injEq] at hr
      subst hr
      dsimp only
      obtain ⟨hc0, hc1⟩ := assess_test_case_completeness_bounds entity c hc
      have hm0 : (0 : Rat) ≤
          min (((rule.test_case_patterns.filter fun rp =>
              reSearch rp.pat text.toList).length : Rat) /
            (rule.test_case_patterns.length : Rat)) 1 :=
        le_min (by positivity) (by norm_num)
      have hm1 : min (((rule.test_case_patterns.filter fun rp =>
            reSearch rp.pat text.toList).length : Rat) /
          (rule.test_case_patterns.length : Rat)) 1 ≤ 1 := min_le_right _ _
      split_ifs <;> constructor <;> linarith

/-- C1: for every rule in the catalog and every entity, the score of any
`ComplianceResult` produced by requirement evaluation or test-case
evaluation lies in the interval `[0, 1]`. -/
theorem claim_C1 (text : String) (entity : EvaluableEntity)
    (rule : ComplianceRule) (hrule : rule ∈ compliance_rules)
    (requirement : Option EvaluableEntity) (r : ComplianceResult)
    (hr : evaluate_test_case_against_rule text entity rule requirement = Except.ok r) :
    (0 ≤ (evaluate_requirement_against_rule text entity rule).score ∧
      (evaluate_requirement_against_rule text entity rule).score ≤ 1) ∧
    (0 ≤ r.score ∧ r.score ≤ 1) :=
  ⟨evaluate_requirement_score_bounds text entity rule,
   evaluate_test_case_score_bounds text entity rule requirement r hr⟩

theorem claim_C1_witness :
    (0 ≤ (evaluate_requirement_against_rule "design input" {} FDA_820_001).score ∧
      (evaluate_requirement_against_rule "design input" {} FDA_820_001).score ≤ 1) ∧
    (0 ≤ (⟨"FDA_820_001", "FDA 21 CFR Part 820", ComplianceLevel.unknown, 0, [], [], [],
        RiskLevel.unknown⟩ : ComplianceResult).score ∧
      (⟨"FDA_820_001", "FDA 21 CFR Part 820", ComplianceLevel.unknown, 0, [], [], [],
        RiskLevel.unknown⟩ : ComplianceResult).score ≤ 1) :=
  claim_C1 "design input" {} FDA_820_001
    (by unfold compliance_rules; exact List.mem_cons_self _ _) none _ rfl

/-! ## Result identity and the UNKNOWN-filtering invariant -/

lemma evaluate_requirement_rule_id (t : String) (e : EvaluableEntity)
    (rule : ComplianceRule) :
    (evaluate_requirement_against_rule t e rule).rule_id = rule.rule_id := by
  simp only [evaluate_requirement_against_rule]
  split <;> rfl

lemma evaluate_requirement_unknown_of_zero (t : String) (e : EvaluableEntity)
    (rule : ComplianceRule)
    (h : (rule.requirement_patterns.filter fun rp => reSearch rp.pat t.toList).length = 0) :
    (evaluate_requirement_against_rule t e rule).compliance_level =
      ComplianceLevel.unknown := by
  simp only [evaluate_requirement_against_rule]
  rw [if_pos h]

lemma evaluate_test_case_rule_id (t : String) (e : EvaluableEntity)
    (rule : ComplianceRule) (ro : Option EvaluableEntity) (r : ComplianceResult)
    (hr : evaluate_test_case_against_rule t e rule ro = Except.ok r) :
    r.rule_id = rule.rule_id := by
  simp only [evaluate_test_case_against_rule] at hr
  split at hr
  · simp only [Except.ok.injEq] at hr
    subst hr
    rfl
  · rcases hc : assess_test_case_completeness e with er | c <;> rw [hc] at hr
    · simp at hr
    · simp only [Except.ok.injEq] at hr
      subst hr
      rfl

lemma evaluate_test_case_unknown_of_zero (t : String) (e : EvaluableEntity)
    (rule : ComplianceRule) (ro : Option EvaluableEntity)
    (h1 : (rule.test_case_patterns.filter fun rp => reSearch rp.pat t.toList).length = 0)
    (h2 : req_pattern_match_count rule ro = 0) :
    evaluate_test_case_against_rule t e rule ro =
      Except.ok ⟨rule.rule_id, rule.standard, ComplianceLevel.unknown, 0, [], [], [],
        RiskLevel.unknown⟩ := by
  simp only [evaluate_test_case_against_rule]
  rw [if_pos ⟨h1, h2⟩]

lemma assess_requirement_compliance_mem (req : EvaluableEntity) (r : ComplianceResult)
    (hr : r ∈ assess_requirement_compliance req) :
    r.compliance_level ≠ ComplianceLevel.unknown ∧
      ∃ rule ∈ compliance_rules,
        evaluate_requirement_against_rule (entityText req) req rule = r := by
  simp only [assess_requirement_compliance] at hr
  rw [List.mem_filter] at hr
  obtain ⟨hmem, hpred⟩ := hr
  rw [List.mem_map] at hmem
  obtain ⟨rule, hru, heq⟩ := hmem
  exact ⟨by simpa using hpred, rule, hru, heq⟩

lemma assess_test_case_rules_mem (ft : String) (tc : EvaluableEntity)
    (ro : Option EvaluableEntity) (rules : List ComplianceRule)
    (rs : List ComplianceResult)
    (h : assess_test_case_rules ft tc ro rules = Except.ok rs) :
    ∀ r ∈ rs, r.compliance_level ≠ ComplianceLevel.unknown ∧
      ∃ rule ∈ rules, evaluate_test_case_against_rule ft tc rule ro = Except.ok r := by
  induction rules generalizing rs with
  | nil =>
    simp only [assess_test_case_rules, Except.ok.injEq] at h
    subst h
    simp
  | cons rule rest ih =>
    simp only [assess_test_case_rules] at h
    rcases h1 : evaluate_test_case_against_rule ft tc rule ro with er | r1 <;> rw [h1] at h
    · simp at h
    · rcases h2 : assess_test_case_rules ft tc ro rest with er | rs1 <;> rw [h2] at h
      · simp at h
      · simp only [Except.ok.injEq] at h
        subst h
        intro r hr
        rw [List.mem_append] at hr
        rcases hr with hr | hr
        · by_cases hu : r1.compliance_level = ComplianceLevel.unknown
          · simp [hu] at hr
          · simp [hu] at hr
            subst hr
            exact ⟨hu, rule, List.mem_cons_self _ _, h1⟩
        · obtain ⟨hne, rule', hm, he⟩ := ih rs1 h2 r hr
          exact ⟨hne, rule', List.mem_cons_of_mem _ hm, he⟩

lemma compliance_rule_ids_nodup :
    (compliance_rules.map fun rule => rule.rule_id).Nodup := by decide

/-- C2: a rule with zero pattern matches is never present in the result
lists of `assess_requirement_compliance` / `assess_test_case_compliance`
(requirement results need a requirement-pattern match; test-case results
need a test-case-pattern match or a match on the linked requirement),
and no returned result has compliance level UNKNOWN. -/
theorem claim_C2 (requirement test_case : EvaluableEntity)
    (reqOpt : Option EvaluableEntity) (rule : ComplianceRule) (ft : String)
    (rs : List ComplianceResult)
    (hrule : rule ∈ compliance_rules)
    (hft : test_case_full_text test_case = Except.ok ft)
    (hrs : assess_test_case_compliance test_case reqOpt = Except.ok rs)
    (hzq : (rule.requirement_patterns.filter fun rp =>
        reSearch rp.pat (entityText requirement).toList).length = 0)
    (hzt : (rule.test_case_patterns.filter fun rp => reSearch rp.pat ft.toList).length = 0)
    (hzr : req_pattern_match_count rule reqOpt = 0) :
    ((assess_requirement_compliance requirement).all fun r =>
        decide (r.compliance_level ≠ ComplianceLevel.unknown)) = true ∧
    rule.rule_id ∉ (assess_requirement_compliance requirement).map ComplianceResult.rule_id ∧
    (rs.all fun r => decide (r.compliance_level ≠ ComplianceLevel.unknown)) = true ∧
    rule.rule_id ∉ rs.map ComplianceResult.rule_id := by
  have hloop : assess_test_case_rules ft test_case reqOpt compliance_rules = Except.ok rs := by
    unfold assess_test_case_compliance at hrs
    rw [hft] at hrs
    exact hrs
  refine ⟨?_, ?_, ?_, ?_⟩
  · rw [List.all_eq_true]
    intro r hr
    simpa using (assess_requirement_compliance_mem requirement r hr).1
  · intro hmem
    rw [List.mem_map] at hmem
    obtain ⟨r, hr, hid⟩ := hmem
    obtain ⟨hne, rule', hm, heq⟩ := assess_requirement_compliance_mem requirement r hr
    have hridr : r.rule_id = rule'.rule_id := by
      rw [← heq]
      exact evaluate_requirement_rule_id _ _ _
    have hEq : rule' = rule :=
      List.inj_on_of_nodup_map compliance_rule_ids_nodup hm hrule (hridr.symm.trans hid)
    subst hEq
    exact hne (by rw [← heq]; exact evaluate_requirement_unknown_of_zero _ _ _ hzq)
  · rw [List.all_eq_true]
    intro r hr
    simpa using
      (assess_test_case_rules_mem ft test_case reqOpt compliance_rules rs hloop r hr).1
  · intro hmem
    rw [List.mem_map] at hmem
    obtain ⟨r, hr, hid⟩ := hmem
    obtain ⟨hne, rule', hm, heq⟩ :=
      assess_test_case_rules_mem ft test_case reqOpt compliance_rules rs hloop r hr
    have hridr : r.rule_id = rule'.rule_id :=
      evaluate_test_case_rule_id ft test_case rule' reqOpt r heq
    have hEq : rule' = rule :=
      List.inj_on_of_nodup_map compliance_rule_ids_nodup hm hrule (hridr.symm.trans hid)
    subst hEq
    have hu := evaluate_test_case_unknown_of_zero ft test_case rule' reqOpt hzt hzr
    rw [heq] at hu
    simp only [Except.ok.injEq] at hu
    exact hne (by rw [hu])

theorem claim_C2_witness :
    ((assess_requirement_compliance {}).all fun r =>
        decide (r.compliance_level ≠ ComplianceLevel.unknown)) = true ∧
    FDA_820_001.rule_id ∉ (assess_requirement_compliance {}).map ComplianceResult.rule_id ∧
    (([] : List ComplianceResult).all fun r =>
        decide (r.compliance_level ≠ ComplianceLevel.unknown)) = true ∧
    FDA_820_001.rule_id ∉ ([] : List ComplianceResult).map ComplianceResult.rule_id :=
  claim_C2 {} {} none FDA_820_001 "  " []
    (by unfold compliance_rules; exact List.mem_cons_self _ _)
    rfl rfl (by decide) (by decide) rfl

/-! ## The C5 scenario requirement -/

/-- The requirement record of the spec's design-control scenario. -/
def requirement_C5 : EvaluableEntity :=
  { description := some (PyVal.str "The system shall perform risk analysis and hazard identification for all patient data flows, with full traceability to design inputs") }

/-- C5 counterexample: the scenario requirement matches only one of the
six FDA_820_001 requirement patterns (`design\s+input`), its score is
below 0.8, and it is not classified COMPLIANT. -/
theorem claim_C5_counterexample :
    ¬(2 ≤ (FDA_820_001.requirement_patterns.filter fun rp =>
          reSearch rp.pat (entityText requirement_C5).toList).length ∧
      (0.8 : Rat) ≤ (evaluate_requirement_against_rule (entityText requirement_C5)
          requirement_C5 FDA_820_001).score ∧
      (evaluate_requirement_against_rule (entityText requirement_C5)
          requirement_C5 FDA_820_001).compliance_level = ComplianceLevel.compliant) := by
  rintro ⟨hc, -, -⟩
  have h1 : (FDA_820_001.requirement_patterns.filter fun rp =>
      reSearch rp.pat (entityText requirement_C5).toList).length = 1 := by decide
  rw [h1] at hc
  exact absurd hc (by norm_num)

/-- C5 amended: evaluating the scenario requirement against FDA_820_001
matches exactly 1 of the 6 requirement patterns, yields score 7/30
(0.6 · 1/6 + 0.4 · 1/3), and classifies as NON_COMPLIANT. -/
theorem claim_C5_amended :
    (FDA_820_001.requirement_patterns.filter fun rp =>
        reSearch rp.pat (entityText requirement_C5).toList).length = 1 ∧
    (evaluate_requirement_against_rule (entityText requirement_C5) requirement_C5
        FDA_820_001).score = 7/30 ∧
    (evaluate_requirement_against_rule (entityText requirement_C5) requirement_C5
        FDA_820_001).compliance_level = ComplianceLevel.non_compliant := by
  have h1 : (FDA_820_001.requirement_patterns.filter fun rp =>
      reSearch rp.pat (entityText requirement_C5).toList).length = 1 := by decide
  have h3 : FDA_820_001.requirement_patterns.length = 6 := by decide
  have h2 : check_validation_criteria requirement_C5 FDA_820_001.validation_criteria
      = 1/3 := by
    simp only [check_validation_criteria]
    rw [if_neg (by decide)]
    rw [show (FDA_820_001.validation_criteria.countP fun pr =>
        pr.2 && criterionHit pr.1 (entityText requirement_C5)) = 1 from by decide]
    rw [show FDA_820_001.validation_criteria.length = 3 from by decide]
    norm_num
  refine ⟨h1, ?_, ?_⟩
  · simp only [evaluate_requirement_against_rule]
    rw [if_neg (by rw [h1]; norm_num)]
    dsimp only
    rw [h1, h3, h2, min_def]
    norm_num
  · simp only [evaluate_requirement_against_rule]
    rw [if_neg (by rw [h1]; norm_num)]
    dsimp only
    rw [h1, h3, h2, min_def]
    norm_num

/-! ## Criteria-checker claims -/

/-- C3 counterexample: with text "traceability" the map
`{requires_traceability: True}` scores 1.0, but adding the unmapped
required criterion `requires_mitigation` drops the ratio to 1/2, so the
ratio does not stay unchanged. -/
theorem claim_C3_counterexample :
    check_validation_criteria { description := some (PyVal.str "traceability") }
        [("requires_traceability", true), ("requires_mitigation", true)] ≠
      check_validation_criteria { description := some (PyVal.str "traceability") }
        [("requires_traceability", true)] := by
  have ha : check_validation_criteria { description := some (PyVal.str "traceability") }
      [("requires_traceability", true), ("requires_mitigation", true)] = 1/2 := by
    simp only [check_validation_criteria]
    rw [if_neg (by decide)]
    rw [show ([("requires_traceability", true), ("requires_mitigation", true)].countP
        fun pr => pr.2 && criterionHit pr.1
          (entityText { description := some (PyVal.str "traceability") })) = 1 from by decide]
    norm_num
  have hb : check_validation_criteria { description := some (PyVal.str "traceability") }
      [("requires_traceability", true)] = 1 := by
    simp only [check_validation_criteria]
    rw [if_neg (by decide)]
    rw [show ([("requires_traceability", true)].countP
        fun pr => pr.2 && criterionHit pr.1
          (entityText { description := some (PyVal.str "traceability") })) = 1 from by decide]
    norm_num
  rw [ha, hb]
  norm_num

/-- C3 amended: a required criterion whose name has no keyword mapping
contributes nothing to the numerator but still counts in the
denominator: appending it to the criteria map changes the ratio from
`hits / n` (or 1.0 when `n = 0`) to `hits / (n + 1)`, so the ratio never
increases and strictly drops whenever the numerator is non-zero. -/
theorem claim_C3_amended (item : EvaluableEntity) (criteria : List (String × Bool))
    (nm : String)
    (h1 : nm ≠ "requires_traceability") (h2 : nm ≠ "requires_verification")
    (h3 : nm ≠ "requires_validation") (h4 : nm ≠ "requires_risk_analysis")
    (h5 : nm ≠ "requires_security_testing") (h6 : nm ≠ "requires_documentation") :
    check_validation_criteria item (criteria ++ [(nm, true)]) =
      ((criteria.countP fun pr => pr.2 && criterionHit pr.1 (entityText item)) : Rat) /
        ((criteria.length : Rat) + 1) ∧
    check_validation_criteria item (criteria ++ [(nm, true)]) ≤
      check_validation_criteria item criteria := by
  have hhit : criterionHit nm (entityText item) = false := by
    unfold criterionHit
    rw [if_neg h1, if_neg h2, if_neg h3, if_neg h4, if_neg h5, if_neg h6]
  have hkey : check_validation_criteria item (criteria ++ [(nm, true)]) =
      ((criteria.countP fun pr => pr.2 && criterionHit pr.1 (entityText item)) : Rat) /
        ((criteria.length : Rat) + 1) := by
    simp only [check_validation_criteria]
    rw [if_neg (by simp)]
    rw [List.countP_append, List.length_append]
    simp [hhit]
  refine ⟨hkey, ?_⟩
  rw [hkey]
  by_cases h : criteria.length = 0
  · have hcrit : criteria = [] := List.length_eq_zero.mp h
    subst hcrit
    simp only [check_validation_criteria]
    norm_num
  · simp only [check_validation_criteria]
    rw [if_neg h]
    have hpos : (0 : Rat) < (criteria.length : Rat) := by
      exact_mod_cast Nat.pos_of_ne_zero h
    exact div_le_div_of_nonneg_left (by positivity) hpos (by linarith)

theorem claim_C3_witness :
    check_validation_criteria {}
        ([("requires_traceability", true)] ++ [("requires_mitigation", true)]) =
      (([("requires_traceability", true)].countP fun pr =>
          pr.2 && criterionHit pr.1 (entityText {})) : Rat) /
        (([("requires_traceability", true)].length : Rat) + 1) ∧
    check_validation_criteria {}
        ([("requires_traceability", true)] ++ [("requires_mitigation", true)]) ≤
      check_validation_criteria {} [("requires_traceability", true)] :=
  claim_C3_amended {} [("requires_traceability", true)] "requires_mitigation"
    (by decide) (by decide) (by decide) (by decide) (by decide) (by decide)

/-- C4 counterexample: a non-empty criteria map whose values are all
false yields ratio 0.0, not the claimed 1.0. -/
theorem claim_C4_counterexample :
    check_validation_criteria {} [("requires_traceability", false)] = 0 ∧
      (0 : Rat) ≠ 1 := by
  constructor
  · simp only [check_validation_criteria]
    rw [if_neg (by decide)]
    rw [show ([("requires_traceability", false)].countP fun pr =>
        pr.2 && criterionHit pr.1 (entityText {})) = 0 from by decide]
    norm_num
  · norm_num

/-- C4 amended: with zero required criteria the checker returns 1.0 only
for the empty map; a non-empty all-false map returns 0.0. -/
theorem claim_C4_amended (item : EvaluableEntity) (criteria : List (String × Bool))
    (hnone : ∀ pr ∈ criteria, pr.2 = false) :
    check_validation_criteria item criteria = if criteria.length = 0 then 1 else 0 := by
  simp only [check_validation_criteria]
  by_cases h : criteria.length = 0
  · rw [if_pos h, if_pos h]
  · rw [if_neg h, if_neg h]
    have hcz : (criteria.countP fun pr =>
        pr.2 && criterionHit pr.1 (entityText item)) = 0 := by
      rw [List.countP_eq_zero]
      intro pr hpr
      simp [hnone pr hpr]
    rw [hcz]
    norm_num

theorem claim_C4_witness :
    check_validation_criteria {} [("requires_traceability", false)] =
      if ([("requires_traceability", false)] : List (String × Bool)).length = 0
      then 1 else 0 :=
  claim_C4_amended {} [("requires_traceability", false)] (by decide)

/-! ## Completeness scorer and non-text fields -/

/-- C8: a test case with all seven structural fields populated (six
non-empty strings and a non-empty list of test steps) scores exactly 1.0
on completeness: the weights 0.1+0.1+0.1+0.3+0.2+0.1+0.1 sum to 1. -/
theorem claim_C8 (tc : EvaluableEntity) (t d pre er post_c pri : String)
    (steps : List PyVal)
    (ht : tc.title = some (PyVal.str t)) (ht' : t ≠ "")
    (hd : tc.description = some (PyVal.str d)) (hd' : d ≠ "")
    (hp : tc.preconditions = some (PyVal.str pre)) (hp' : pre ≠ "")
    (hs : tc.test_steps = some (PyVal.list steps)) (hs' : steps ≠ [])
    (he : tc.expected_results = some (PyVal.str er)) (he' : er ≠ "")
    (hpo : tc.postconditions = some (PyVal.str post_c)) (hpo' : post_c ≠ "")
    (hpr : tc.priority = some (PyVal.str pri)) (hpr' : pri ≠ "") :
    assess_test_case_completeness tc = Except.ok 1 := by
  have hflag : test_steps_flag tc = Except.ok true := by
    rcases steps with _ | ⟨v, vs⟩
    · exact absurd rfl hs'
    · unfold test_steps_flag
      rw [hs]
      simp [pyGet, truthy, pyLen]
  unfold assess_test_case_completeness
  rw [ht, hd, hp, he, hpo, hpr, hflag]
  simp only [pyGet, Option.getD_some, truthy, decide_eq_true_eq, ne_eq, ht', hd', hp',
    he', hpo', hpr', not_false_eq_true, if_true, Except.ok.injEq]
  norm_num

theorem claim_C8_witness :
    assess_test_case_completeness
      { title := some (PyVal.str "T"), description := some (PyVal.str "D"),
        test_steps := some (PyVal.list [PyVal.str "step 1"]),
        preconditions := some (PyVal.str "P"),
        expected_results := some (PyVal.str "E"),
        postconditions := some (PyVal.str "Q"),
        priority := some (PyVal.str "high") } = Except.ok 1 :=
  claim_C8 _ "T" "D" "P" "E" "Q" "high" [PyVal.str "step 1"]
    rfl (by decide) rfl (by decide) rfl (by decide) rfl (List.cons_ne_nil _ _)
    rfl (by decide) rfl (by decide) rfl (by decide)

/-- C9: a non-sequence `test_steps` value (here the integer 5) makes
`assess_test_case_compliance` raise a `TypeError` at
`" ".join(test_case.get('test_steps', []))` instead of being treated as
empty: the assessment returns no result list. -/
theorem claim_C9_type_error :
    assess_test_case_compliance
      { title := some (PyVal.str "Security test"), test_steps := some (PyVal.int 5) }
      none = Except.error () := rfl

/-! ## Rollup (C7) -/

/-- Spec-side rollup score (§4.7): the mean of the two group averages
when both groups are non-empty, the single group's average otherwise. -/
def spec_rollup_score (standard_req_results standard_tc_results : List ComplianceResult) :
    Rat :=
  if standard_req_results ≠ [] ∧ standard_tc_results ≠ [] then
    (listAvg (standard_req_results.map (·.score)) +
      listAvg (standard_tc_results.map (·.score))) / 2
  else if standard_req_results ≠ [] then listAvg (standard_req_results.map (·.score))
  else listAvg (standard_tc_results.map (·.score))

/-- Spec-side classification with the 0.8 / 0.5 thresholds. -/
def spec_classify (score : Rat) : ComplianceLevel :=
  if 0.8 ≤ score then ComplianceLevel.compliant
  else if 0.5 ≤ score then ComplianceLevel.partially_compliant
  else ComplianceLevel.non_compliant

lemma lookup_filterMap_of_not_mem {β : Type} (f : String → Option β) (s : String)
    (l : List String) (hs : s ∉ l) :
    (l.filterMap fun st => (f st).map fun e => (st, e)).lookup s = none := by
  induction l with
  | nil => rfl
  | cons a tl ih =>
    have hsa : s ≠ a := fun h => hs (h ▸ List.mem_cons_self a tl)
    have hstl : s ∉ tl := fun h => hs (List.mem_cons_of_mem a h)
    have hbeq : (s == a) = false := by simp [hsa]
    rw [List.filterMap_cons]
    cases hfa : f a with
    | none => simpa using ih hstl
    | some b =>
      simp only [Option.map_some']
      simpa [List.lookup, hbeq] using ih hstl

lemma lookup_filterMap_of_nodup {β : Type} (f : String → Option β) (s : String)
    (l : List String) (hs : s ∈ l) (hnd : l.Nodup) :
    (l.filterMap fun st => (f st).map fun e => (st, e)).lookup s = f s := by
  induction l with
  | nil => cases hs
  | cons a tl ih =>
    rw [List.filterMap_cons]
    rcases List.mem_cons.mp hs with h | h
    · subst h
      have hstl : s ∉ tl := (List.nodup_cons.mp hnd).1
      cases hfa : f s with
      | none => simpa using lookup_filterMap_of_not_mem f s tl hstl
      | some b =>
        simp only [Option.map_some']
        simp [List.lookup]
    · have hne : s ≠ a := fun hh => (List.nodup_cons.mp hnd).1 (hh ▸ h)
      have hbeq : (s == a) = false := by simp [hne]
      cases hfa : f a with
      | none => simpa using ih h (List.nodup_cons.mp hnd).2
      | some b =>
        simp only [Option.map_some']
        simpa [List.lookup, hbeq] using ih h (List.nodup_cons.mp hnd).2

lemma standards_nodup : standards.Nodup := by decide

lemma calculate_overall_lookup (req_results tc_results : List ComplianceResult)
    (s : String) (hs : s ∈ standards) :
    (calculate_overall_compliance req_results tc_results).lookup s =
      overall_entry_for req_results tc_results s := by
  unfold calculate_overall_compliance
  exact lookup_filterMap_of_nodup _ s standards hs standards_nodup

lemma ite_ne_zero_self (x : Rat) : (if x ≠ 0 then x else 0) = x := by
  by_cases h : x = 0 <;> simp [h]

lemma overall_entry_for_eq (req_results tc_results : List ComplianceResult) (s : String) :
    overall_entry_for req_results tc_results s =
      (if (req_results.filter fun r => decide (r.standard = s)) = [] ∧
          (tc_results.filter fun r => decide (r.standard = s)) = [] then none
       else some
        { score := spec_rollup_score (req_results.filter fun r => decide (r.standard = s))
            (tc_results.filter fun r => decide (r.standard = s))
          compliance_level := spec_classify (spec_rollup_score
            (req_results.filter fun r => decide (r.standard = s))
            (tc_results.filter fun r => decide (r.standard = s)))
          requirement_count := (req_results.filter fun r => decide (r.standard = s)).length
          test_case_count :=
            (tc_results.filter fun r => decide (r.standard = s)).length }) := by
  by_cases hR0 : (req_results.filter fun r => decide (r.standard = s)) = [] <;>
    by_cases hT0 : (tc_results.filter fun r => decide (r.standard = s)) = []
  · simp only [overall_entry_for]
    rw [if_pos ⟨hR0, hT0⟩, if_pos ⟨hR0, hT0⟩]
  · simp only [overall_entry_for, spec_rollup_score, spec_classify, listAvg]
    rw [hR0]
    simp [hT0, List.map_eq_nil_iff, List.length_map]
  · simp only [overall_entry_for, spec_rollup_score, spec_classify, listAvg]
    rw [hT0]
    simp [hR0, ite_ne_zero_self, List.map_eq_nil_iff, List.length_map]
    by_cases hz : ((req_results.filter fun r => decide (r.standard = s)).map
        (fun x => x.score)).sum = 0
    · simp [hz]
    · simp [hz]
  · simp only [overall_entry_for, spec_rollup_score, spec_classify, listAvg]
    simp [hR0, hT0, List.map_eq_nil_iff, List.length_map]

/-- C7: for every standard in the supported list and every pair of result
lists, the rollup maps the standard to an entry whose score is the mean
of the two group averages when both groups are non-empty and the single
group's average otherwise, classified with the 0.8/0.5 thresholds and
carrying each group's result count; a standard with zero results in both
groups is absent from the rollup. -/
theorem claim_C7 (s : String) (hs : s ∈ standards)
    (req_results tc_results : List ComplianceResult) :
    (calculate_overall_compliance req_results tc_results).lookup s =
      (if (req_results.filter fun r => decide (r.standard = s)) = [] ∧
          (tc_results.filter fun r => decide (r.standard = s)) = [] then none
       else some
        { score := spec_rollup_score (req_results.filter fun r => decide (r.standard = s))
            (tc_results.filter fun r => decide (r.standard = s))
          compliance_level := spec_classify (spec_rollup_score
            (req_results.filter fun r => decide (r.standard = s))
            (tc_results.filter fun r => decide (r.standard = s)))
          requirement_count := (req_results.filter fun r => decide (r.standard = s)).length
          test_case_count :=
            (tc_results.filter fun r => decide (r.standard = s)).length }) := by
  rw [calculate_overall_lookup req_results tc_results s hs, overall_entry_for_eq]

/-- A concrete HIPAA requirement result used to witness the rollup claim. -/
def result_C7 : ComplianceResult :=
  ⟨"HIPAA_001", "HIPAA", ComplianceLevel.compliant, 9/10, [], [], [], RiskLevel.high⟩

theorem claim_C7_witness :
    (calculate_overall_compliance [result_C7] []).lookup "HIPAA" =
      (if ([result_C7].filter fun r => decide (r.standard = "HIPAA")) = [] ∧
          (([] : List ComplianceResult).filter fun r => decide (r.standard = "HIPAA")) = []
       then none
       else some
        { score := spec_rollup_score
            ([result_C7].filter fun r => decide (r.standard = "HIPAA"))
            (([] : List ComplianceResult).filter fun r => decide (r.standard = "HIPAA"))
          compliance_level := spec_classify (spec_rollup_score
            ([result_C7].filter fun r => decide (r.standard = "HIPAA"))
            (([] : List ComplianceResult).filter fun r => decide (r.standard = "HIPAA")))
          requirement_count :=
            ([result_C7].filter fun r => decide (r.standard = "HIPAA")).length
          test_case_count :=
            (([] : List ComplianceResult).filter fun r =>
              decide (r.standard = "HIPAA")).length }) :=
  claim_C7 "HIPAA" (by decide) [result_C7] []

/-! ## Substring containment implies regex match -/

lemma containsSub_decomp (hay needle : List Char)
    (h : containsSub hay needle = true) : ∃ p q, hay = p ++ (needle ++ q) := by
  induction hay with
  | nil =>
    simp only [containsSub, Bool.or_false] at h
    rw [List.isPrefixOf_iff_prefix] at h
    obtain ⟨q, hq⟩ := h
    exact ⟨[], q, by simpa using hq.symm⟩
  | cons c t ih =>
    simp only [containsSub, Bool.or_eq_true] at h
    rcases h with h | h
    · rw [List.isPrefixOf_iff_prefix] at h
      obtain ⟨q, hq⟩ := h
      exact ⟨[], q, by simpa using hq.symm⟩
    · obtain ⟨p, q, hpq⟩ := ih h
      exact ⟨c :: p, q, by simp [hpq]⟩

lemma segM_append (cs rest : List Char) (h : ∀ c ∈ cs, lowerChar c = c) :
    segM (cs.map PatAtom.ch) (cs ++ rest) = some rest := by
  induction cs with
  | nil => rfl
  | cons c t ih =>
    have hc : lowerChar c = c := h c (List.mem_cons_self _ _)
    simp only [List.map_cons, List.cons_append, segM]
    rw [show atomM (PatAtom.ch c) c = true from by simp [atomM, hc]]
    simp only [if_true]
    exact ih fun c' hc' => h c' (List.mem_cons_of_mem _ hc')

lemma patM_single_word (w rest : List Char) (h : ∀ c ∈ w, lowerChar c = c) :
    patM [w.map PatAtom.ch] (w ++ rest) = true := by
  simp only [patM]
  rw [segM_append w rest h]
  rfl

lemma patM_two_words (w1 w2 rest : List Char)
    (h1 : ∀ c ∈ w1, lowerChar c = c) (h2 : ∀ c ∈ w2, lowerChar c = c)
    (c2 : Char) (t2 : List Char) (hw2 : w2 = c2 :: t2) (hc2 : isSpaceChar c2 = false) :
    patM [w1.map PatAtom.ch, w2.map PatAtom.ch] (w1 ++ ' ' :: (w2 ++ rest)) = true := by
  subst hw2
  simp only [patM]
  rw [segM_append w1 (' ' :: ((c2 :: t2) ++ rest)) h1]
  show (match dropWs1 (' ' :: ((c2 :: t2) ++ rest)) with
    | none => false
    | some cs'' => patM [(c2 :: t2).map PatAtom.ch] cs'') = true
  rw [show dropWs1 (' ' :: ((c2 :: t2) ++ rest)) = some ((c2 :: t2) ++ rest) from by
    have hsp : isSpaceChar ' ' = true := by decide
    simp [dropWs1, dropWsAll, hsp, hc2]]
  show patM [(c2 :: t2).map PatAtom.ch] ((c2 :: t2) ++ rest) = true
  exact patM_single_word (c2 :: t2) rest h2

lemma reSearch_of_patM_suffix (p : List (List PatAtom)) (pre cs : List Char)
    (h : patM p cs = true) : reSearch p (pre ++ cs) = true := by
  induction pre with
  | nil =>
    cases cs with
    | nil => simpa [reSearch] using h
    | cons c t => simp [reSearch, h]
  | cons a t ih => simp [reSearch, ih]

lemma reSearch_word_of_contains (w hay : String)
    (h : strIn w hay = true) (h1 : ∀ c ∈ w.toList, lowerChar c = c) :
    reSearch [w.toList.map PatAtom.ch] hay.toList = true := by
  unfold strIn at h
  obtain ⟨p, q, hpq⟩ := containsSub_decomp hay.toList w.toList h
  rw [hpq]
  exact reSearch_of_patM_suffix _ p _ (patM_single_word w.toList q h1)

lemma reSearch_phrase2_of_contains (w1 w2 needle hay : String)
    (h : strIn needle hay = true)
    (hsplit : needle.toList = w1.toList ++ ' ' :: w2.toList)
    (h1 : ∀ c ∈ w1.toList, lowerChar c = c) (h2 : ∀ c ∈ w2.toList, lowerChar c = c)
    (c2 : Char) (t2 : List Char) (hw2 : w2.toList = c2 :: t2)
    (hc2 : isSpaceChar c2 = false) :
    reSearch [w1.toList.map PatAtom.ch, w2.toList.map PatAtom.ch] hay.toList = true := by
  unfold strIn at h
  obtain ⟨p, q, hpq⟩ := containsSub_decomp hay.toList needle.toList h
  rw [hsplit] at hpq
  rw [hpq]
  have hassoc : (w1.toList ++ ' ' :: w2.toList) ++ q =
      w1.toList ++ ' ' :: (w2.toList ++ q) := by simp
  rw [hassoc]
  exact reSearch_of_patM_suffix _ p _
    (patM_two_words w1.toList w2.toList q h1 h2 c2 t2 hw2 hc2)

lemma filter_length_ne_zero (pats : List RePat) (rp : RePat) (t : List Char)
    (hmem : rp ∈ pats) (hm : reSearch rp.pat t = true) :
    (pats.filter fun p => reSearch p.pat t).length ≠ 0 := by
  have hmem2 : rp ∈ pats.filter fun p => reSearch p.pat t :=
    List.mem_filter.mpr ⟨hmem, hm⟩
  have := List.length_pos.mpr (List.ne_nil_of_mem hmem2)
  omega

/-! ## Lower bounds for returned test-case scores -/

lemma min_ratio_lower (cnt len : Nat) (hcnt : cnt ≠ 0) (hlen5 : len ≤ 5)
    (hlenpos : 0 < len) :
    (1/5 : Rat) ≤ min ((cnt : Rat) / (len : Rat)) 1 := by
  have h1 : (1 : Rat) ≤ (cnt : Rat) := by exact_mod_cast Nat.one_le_iff_ne_zero.mpr hcnt
  have h2 : ((len : Nat) : Rat) ≤ 5 := by exact_mod_cast hlen5
  have h3 : (0 : Rat) < (len : Rat) := by exact_mod_cast hlenpos
  refine le_min ?_ (by norm_num)
  rw [div_le_div_iff (by norm_num) h3]
  nlinarith

lemma evaluate_test_case_ok_score (text : String) (entity : EvaluableEntity)
    (rule : ComplianceRule) (ro : Option EvaluableEntity) (r : ComplianceResult) (c : Rat)
    (hc : assess_test_case_completeness entity = Except.ok c)
    (hnz : ¬((rule.test_case_patterns.filter fun rp =>
        reSearch rp.pat text.toList).length = 0 ∧ req_pattern_match_count rule ro = 0))
    (hr : evaluate_test_case_against_rule text entity rule ro = Except.ok r)
    (hlen5 : rule.test_case_patterns.length ≤ 5) :
    ((7/100 : Rat) + c/2 ≤ r.score) ∧
    (req_pattern_match_count rule ro ≠ 0 →
      (rule.test_case_patterns.filter fun rp =>
        reSearch rp.pat text.toList).length ≠ 0 →
      (11/50 : Rat) + c/2 ≤ r.score) ∧
    r.compliance_level =
      (if 0.8 ≤ r.score then ComplianceLevel.compliant
       else if 0.5 ≤ r.score then ComplianceLevel.partially_compliant
       else ComplianceLevel.non_compliant) := by
  simp only [evaluate_test_case_against_rule] at hr
  rw [if_neg hnz] at hr
  rw [hc] at hr
  simp only [Except.ok.injEq] at hr
  subst hr
  dsimp only
  have hm0 : (0 : Rat) ≤ min (((rule.test_case_patterns.filter fun rp =>
      reSearch rp.pat text.toList).length : Rat) /
      (rule.test_case_patterns.length : Rat)) 1 := le_min (by positivity) (by norm_num)
  refine ⟨?_, ?_, ?_⟩
  · split_ifs with hb hl hl
    · linarith
    · linarith
    · have htcn : (rule.test_case_patterns.filter fun rp =>
          reSearch rp.pat text.toList).length ≠ 0 :=
        fun h0 => hnz ⟨h0, Nat.eq_zero_of_not_pos hb⟩
      have hm := min_ratio_lower _ _ htcn hlen5 hl
      linarith
    · linarith
  · intro hrq htcn
    split_ifs with hb hl hl
    · have hm := min_ratio_lower _ _ htcn hlen5 hl
      linarith
    · linarith
    · exact absurd (Nat.eq_zero_of_not_pos hb) hrq
    · exact absurd (Nat.eq_zero_of_not_pos hb) hrq
  · split_ifs <;> rfl

/-! ## The ISO 27001 test-case scenario (C6) -/

/-- C6 amended: a test case whose combined text contains the phrases
"verify access control" and "authentication test", linked to a
requirement mentioning "encryption" and "access control", is never
UNKNOWN against ISO_27001_001 and classifies as COMPLIANT or
PARTIALLY_COMPLIANT provided its completeness score is at least 0.56;
with lower completeness the 0.5 threshold can be missed, so the claim's
"regardless of the completeness fields" is dropped. -/
theorem claim_C6_amended (test_case req : EvaluableEntity) (ft : String) (c : Rat)
    (r : ComplianceResult)
    (hft : test_case_full_text test_case = Except.ok ft)
    (hvac : strIn "verify access control" ft = true)
    (hauth : strIn "authentication test" ft = true)
    (henc : strIn "encryption" (entityText req) = true)
    (hacc : strIn "access control" (entityText req) = true)
    (hc : assess_test_case_completeness test_case = Except.ok c)
    (hc56 : (14/25 : Rat) ≤ c)
    (hr : evaluate_test_case_against_rule ft test_case ISO_27001_001 (some req) =
      Except.ok r) :
    r.compliance_level = ComplianceLevel.compliant ∨
      r.compliance_level = ComplianceLevel.partially_compliant := by
  have htc : (ISO_27001_001.test_case_patterns.filter fun rp =>
      reSearch rp.pat ft.toList).length ≠ 0 := by
    apply filter_length_ne_zero _
      (phrase "authentication\\s+test" ["authentication", "test"]) _ (by decide)
    show reSearch ["authentication".toList.map PatAtom.ch,
      "test".toList.map PatAtom.ch] ft.toList = true
    exact reSearch_phrase2_of_contains "authentication" "test" "authentication test" ft
      hauth (by decide) (by decide) (by decide) 't' ['e', 's', 't'] (by decide) (by decide)
  have hreq : req_pattern_match_count ISO_27001_001 (some req) ≠ 0 := by
    show (ISO_27001_001.requirement_patterns.filter fun rp =>
      reSearch rp.pat (entityText req).toList).length ≠ 0
    apply filter_length_ne_zero _ (phrase "encryption" ["encryption"]) _ (by decide)
    show reSearch ["encryption".toList.map PatAtom.ch] (entityText req).toList = true
    exact reSearch_word_of_contains "encryption" _ henc (by decide)
  have hnz : ¬((ISO_27001_001.test_case_patterns.filter fun rp =>
      reSearch rp.pat ft.toList).length = 0 ∧
      req_pattern_match_count ISO_27001_001 (some req) = 0) :=
    fun hcon => htc hcon.1
  obtain ⟨h1, h2, h3⟩ := evaluate_test_case_ok_score ft test_case ISO_27001_001
    (some req) r c hc hnz hr (by decide)
  have hsc : (0.5 : Rat) ≤ r.score := by
    have := h2 hreq htc
    linarith
  by_cases h08 : (0.8 : Rat) ≤ r.score
  · rw [h3, if_pos h08]
    exact Or.inl rfl
  · rw [h3, if_neg h08, if_pos hsc]
    exact Or.inr rfl

/-- The minimal test case of the C6 counterexample: phrases present, all
completeness fields but the title empty. -/
def tc_C6cx : EvaluableEntity :=
  { title := some (PyVal.str "verify access control authentication test") }

/-- The linked requirement of the C6 scenario. -/
def req_C6 : EvaluableEntity :=
  { description := some (PyVal.str "encryption and access control") }

/-- The full text `assess_test_case_compliance` builds for `tc_C6cx`. -/
def ft_C6cx : String := "verify access control authentication test  "

/-- The result the engine produces for `tc_C6cx` against ISO_27001_001. -/
def result_C6cx : ComplianceResult :=
  ⟨"ISO_27001_001", "ISO 27001", ComplianceLevel.non_compliant, 27/100,
   ["Test case does not adequately verify compliance"],
   ["Add test steps to verify ISO 27001 compliance", "Add security testing steps"],
   ["Found test pattern: authentication\\s+test",
    "Test case addresses compliance-related requirements"],
   RiskLevel.high⟩

/-- C6 counterexample: the scenario conditions hold for `tc_C6cx` and
`req_C6`, yet ISO_27001_001 evaluation yields score 0.27 and classifies
NON_COMPLIANT (the completeness average drags the score below 0.5). -/
theorem claim_C6_counterexample :
    strIn "verify access control" ft_C6cx = true ∧
    strIn "authentication test" ft_C6cx = true ∧
    strIn "encryption" (entityText req_C6) = true ∧
    strIn "access control" (entityText req_C6) = true ∧
    test_case_full_text tc_C6cx = Except.ok ft_C6cx ∧
    evaluate_test_case_against_rule ft_C6cx tc_C6cx ISO_27001_001 (some req_C6) =
      Except.ok result_C6cx ∧
    result_C6cx.compliance_level = ComplianceLevel.non_compliant := by
  refine ⟨by decide, by decide, by decide, by decide, rfl, ?_, rfl⟩
  have hm : (ISO_27001_001.test_case_patterns.filter fun rp =>
      reSearch rp.pat ft_C6cx.toList) =
      [phrase "authentication\\s+test" ["authentication", "test"]] := by decide
  have hrq : req_pattern_match_count ISO_27001_001 (some req_C6) = 2 := by decide
  have hcc : assess_test_case_completeness tc_C6cx = Except.ok (0 + 0.1) := rfl
  simp only [evaluate_test_case_against_rule, hm, hrq, hcc,
    show ISO_27001_001.test_case_patterns.length = 5 from by decide]
  rw [min_def]
  norm_num [result_C6cx, ComplianceResult.mk.injEq]
  decide

/-- The witness test case for the amended C6 claim (completeness 0.7). -/
def tc_C6w : EvaluableEntity :=
  { title := some (PyVal.str "verify access control authentication test"),
    description := some (PyVal.str "d"),
    test_steps := some (PyVal.list [PyVal.str "s"]),
    expected_results := some (PyVal.str "e") }

/-- The result the engine produces for `tc_C6w` against ISO_27001_001. -/
def result_C6w : ComplianceResult :=
  ⟨"ISO_27001_001", "ISO 27001", ComplianceLevel.partially_compliant, 57/100,
   ["Test case partially covers compliance requirements"],
   ["Enhance test case to fully verify ISO 27001 compliance", "Add security testing steps"],
   ["Found test pattern: authentication\\s+test",
    "Test case addresses compliance-related requirements"],
   RiskLevel.high⟩

theorem claim_C6_witness :
    result_C6w.compliance_level = ComplianceLevel.compliant ∨
      result_C6w.compliance_level = ComplianceLevel.partially_compliant := by
  have hm : (ISO_27001_001.test_case_patterns.filter fun rp =>
      reSearch rp.pat "verify access control authentication test d s".toList) =
      [phrase "authentication\\s+test" ["authentication", "test"]] := by decide
  have hrq : req_pattern_match_count ISO_27001_001 (some req_C6) = 2 := by decide
  have hcc : assess_test_case_completeness tc_C6w =
      Except.ok (0 + 0.1 + 0.1 + 0.3 + 0.2) := rfl
  have hr : evaluate_test_case_against_rule
      "verify access control authentication test d s" tc_C6w ISO_27001_001
      (some req_C6) = Except.ok result_C6w := by
    simp only [evaluate_test_case_against_rule, hm, hrq, hcc,
      show ISO_27001_001.test_case_patterns.length = 5 from by decide]
    rw [min_def]
    norm_num [result_C6w, ComplianceResult.mk.injEq]
    decide
  exact claim_C6_amended tc_C6w req_C6
    "verify access control authentication test d s" (0 + 0.1 + 0.1 + 0.3 + 0.2)
    result_C6w rfl (by decide) (by decide) (by decide) (by decide) hcc
    (by norm_num) hr

/-! ## Lower bounds on returned scores (C10) -/

/-- C10 amended: every returned (non-UNKNOWN) result has score strictly
greater than 0; a returned requirement result has score at least
0.6/len(requirement_patterns) and non-empty evidence; a returned
test-case result for a catalog rule has score at least 0.07 (the
claimed 0.15 bound fails: one ISO_27001_001 pattern match with
completeness 0.1 yields 0.12). -/
theorem claim_C10_amended (text : String) (entity : EvaluableEntity)
    (rule : ComplianceRule) (hrule : rule ∈ compliance_rules)
    (ro : Option EvaluableEntity) (r : ComplianceResult)
    (hok : evaluate_test_case_against_rule text entity rule ro = Except.ok r)
    (hlvl : r.compliance_level ≠ ComplianceLevel.unknown)
    (hqlvl : (evaluate_requirement_against_rule text entity rule).compliance_level ≠
      ComplianceLevel.unknown) :
    ((0.6 : Rat) / (rule.requirement_patterns.length : Rat) ≤
        (evaluate_requirement_against_rule text entity rule).score ∧
      (evaluate_requirement_against_rule text entity rule).evidence ≠ [] ∧
      0 < (evaluate_requirement_against_rule text entity rule).score) ∧
    ((7/100 : Rat) ≤ r.score ∧ 0 < r.score) := by
  have hmz : (rule.requirement_patterns.filter fun rp =>
      reSearch rp.pat text.toList).length ≠ 0 :=
    fun h => hqlvl (evaluate_requirement_unknown_of_zero text entity rule h)
  constructor
  · simp only [evaluate_requirement_against_rule]
    rw [if_neg hmz]
    dsimp only
    have hm1 : 1 ≤ (rule.requirement_patterns.filter fun rp =>
        reSearch rp.pat text.toList).length := Nat.one_le_iff_ne_zero.mpr hmz
    have hlenf : (rule.requirement_patterns.filter fun rp =>
        reSearch rp.pat text.toList).length ≤ rule.requirement_patterns.length :=
      List.length_filter_le _ _
    have hlen1 : 1 ≤ rule.requirement_patterns.length := le_trans hm1 hlenf
    have hlpos : (0 : Rat) < (rule.requirement_patterns.length : Rat) := by
      exact_mod_cast lt_of_lt_of_le Nat.zero_lt_one hlen1
    have hminlow : (1 : Rat) / (rule.requirement_patterns.length : Rat) ≤
        min (((rule.requirement_patterns.filter fun rp =>
            reSearch rp.pat text.toList).length : Rat) /
          (rule.requirement_patterns.length : Rat)) 1 := by
      refine le_min ?_ ?_
      · exact (div_le_div_right hlpos).mpr (by exact_mod_cast hm1)
      · rw [div_le_one hlpos]
        exact_mod_cast hlen1
    obtain ⟨hc0, hc1⟩ := check_validation_criteria_bounds entity rule.validation_criteria
    have hx := mul_le_mul_of_nonneg_right hminlow (by norm_num : (0 : Rat) ≤ 0.6)
    have hy := mul_nonneg hc0 (by norm_num : (0 : Rat) ≤ 0.4)
    have h06 : (0.6 : Rat) / (rule.requirement_patterns.length : Rat) =
        1 / (rule.requirement_patterns.length : Rat) * 0.6 := by ring
    have hdposQ : (0 : Rat) < 1 / (rule.requirement_patterns.length : Rat) :=
      div_pos one_pos hlpos
    refine ⟨by linarith, ?_, by linarith⟩
    intro h0
    rw [List.map_eq_nil_iff] at h0
    rw [h0] at hmz
    exact hmz rfl
  · have hnz : ¬((rule.test_case_patterns.filter fun rp =>
        reSearch rp.pat text.toList).length = 0 ∧
        req_pattern_match_count rule ro = 0) := by
      intro hcon
      apply hlvl
      have hu := evaluate_test_case_unknown_of_zero text entity rule ro hcon.1 hcon.2
      rw [hok] at hu
      simp only [Except.ok.injEq] at hu
      rw [hu]
    rcases hcs : assess_test_case_completeness entity with e | c
    · exfalso
      simp only [evaluate_test_case_against_rule] at hok
      rw [if_neg hnz] at hok
      rw [hcs] at hok
      simp at hok
    · obtain ⟨hc0, hc1⟩ := assess_test_case_completeness_bounds entity c hcs
      have hlen5 : rule.test_case_patterns.length ≤ 5 := by
        have hall : ∀ ru ∈ compliance_rules, ru.test_case_patterns.length ≤ 5 := by decide
        exact hall rule hrule
      obtain ⟨h1, -, -⟩ :=
        evaluate_test_case_ok_score text entity rule ro r c hcs hnz hok hlen5
      exact ⟨by linarith, by linarith⟩

/-- The test case of the C10 counterexample. -/
def tc_C10 : EvaluableEntity := { title := some (PyVal.str "authentication test") }

/-- The result the engine produces for `tc_C10` against ISO_27001_001:
score 0.12, returned as NON_COMPLIANT. -/
def result_C10 : ComplianceResult :=
  ⟨"ISO_27001_001", "ISO 27001", ComplianceLevel.non_compliant, 3/25,
   ["Test case does not adequately verify compliance"],
   ["Add test steps to verify ISO 27001 compliance", "Add security testing steps"],
   ["Found test pattern: authentication\\s+test"], RiskLevel.high⟩

/-- C10 counterexample: a returned (non-UNKNOWN) test-case result with
score 0.12 < 0.15, refuting the claimed 0.15 lower bound. -/
theorem claim_C10_counterexample :
    evaluate_test_case_against_rule "authentication test  " tc_C10 ISO_27001_001 none =
      Except.ok result_C10 ∧
    result_C10.compliance_level ≠ ComplianceLevel.unknown ∧
    result_C10.score < 0.15 := by
  refine ⟨?_, by decide, by norm_num [result_C10]⟩
  have hm : (ISO_27001_001.test_case_patterns.filter fun rp =>
      reSearch rp.pat "authentication test  ".toList) =
      [phrase "authentication\\s+test" ["authentication", "test"]] := by decide
  have hcc : assess_test_case_completeness tc_C10 = Except.ok (0 + 0.1) := rfl
  simp only [evaluate_test_case_against_rule, hm, hcc,
    show req_pattern_match_count ISO_27001_001 none = 0 from rfl,
    show ISO_27001_001.test_case_patterns.length = 5 from by decide]
  rw [min_def]
  norm_num [result_C10, ComplianceResult.mk.injEq]
  decide

/-- The result the engine produces for the C10 witness inputs. -/
def result_C10w : ComplianceResult :=
  ⟨"FDA_820_002", "FDA 21 CFR Part 820", ComplianceLevel.non_compliant, 7/80,
   ["Test case does not adequately verify compliance"],
   ["Add test steps to verify FDA 21 CFR Part 820 compliance"],
   ["Found test pattern: safety\\s+test"], RiskLevel.high⟩

theorem claim_C10_witness :
    ((0.6 : Rat) / (FDA_820_002.requirement_patterns.length : Rat) ≤
        (evaluate_requirement_against_rule "risk analysis safety test" {}
          FDA_820_002).score ∧
      (evaluate_requirement_against_rule "risk analysis safety test" {}
        FDA_820_002).evidence ≠ [] ∧
      0 < (evaluate_requirement_against_rule "risk analysis safety test" {}
        FDA_820_002).score) ∧
    ((7/100 : Rat) ≤ result_C10w.score ∧ 0 < result_C10w.score) := by
  have h1 : (FDA_820_002.requirement_patterns.filter fun rp =>
      reSearch rp.pat "risk analysis safety test".toList).length = 1 := by decide
  have h2 : check_validation_criteria {} FDA_820_002.validation_criteria = 0 := by
    simp only [check_validation_criteria]
    rw [if_neg (by decide)]
    rw [show (FDA_820_002.validation_criteria.countP fun pr =>
      pr.2 && criterionHit pr.1 (entityText {})) = 0 from by decide]
    norm_num
  have hreqlvl : (evaluate_requirement_against_rule "risk analysis safety test" {}
      FDA_820_002).compliance_level = ComplianceLevel.non_compliant := by
    simp only [evaluate_requirement_against_rule]
    rw [if_neg (by rw [h1]; norm_num)]
    dsimp only
    rw [h1, show FDA_820_002.requirement_patterns.length = 4 from by decide, h2,
      min_def]
    norm_num
  have hm : (FDA_820_002.test_case_patterns.filter fun rp =>
      reSearch rp.pat "risk analysis safety test".toList) =
      [phrase "safety\\s+test" ["safety", "test"]] := by decide
  have hcc : assess_test_case_completeness ({} : EvaluableEntity) = Except.ok 0 := rfl
  have hok : evaluate_test_case_against_rule "risk analysis safety test" {}
      FDA_820_002 none = Except.ok result_C10w := by
    simp only [evaluate_test_case_against_rule, hm, hcc,
      show req_pattern_match_count FDA_820_002 none = 0 from rfl,
      show FDA_820_002.test_case_patterns.length = 4 from by decide]
    rw [min_def]
    norm_num [result_C10w, ComplianceResult.mk.injEq]
    decide
  exact claim_C10_amended "risk analysis safety test" {} FDA_820_002
    (by unfold compliance_rules
        exact List.mem_cons_of_mem _ (List.mem_cons_self _ _))
    none result_C10w hok (by decide) (by rw [hreqlvl]; decide)
